import Mathlib

/-!
Shallow embedding of the agent workflow pipeline of this repository:
the shared state model, the nine node functions, the completion
predicate and the linear orchestration helper, translated from
src/graph/nodes.py and src/graph/workflow.py.

Python strings are modelled as Lean strings; Python lists as Lean
lists; the `feedback` dictionary as an optional association list,
where `none` stands for Python `None` (the value a missing key
defaults to in `ensure_state_defaults`).
-/

/-- Python `str.split()` splitting on a run of whitespace: split at every
whitespace character, then drop the empty fragments. -/
def splitOnWsAux : List Char → List Char → List (List Char)
  | acc, [] => [acc.reverse]
  | acc, c :: cs =>
    if c.isWhitespace then acc.reverse :: splitOnWsAux [] cs
    else splitOnWsAux (c :: acc) cs

/-- The whitespace-separated words of a string, Python `text.split()`. -/
def pyWords (s : String) : List (List Char) :=
  (splitOnWsAux [] s.data).filter (fun w => !w.isEmpty)

/-- Drop characters satisfying `p` from both ends of a character list,
the behaviour of Python `str.strip`. -/
def pyStripList (p : Char → Bool) (w : List Char) : List Char :=
  ((w.dropWhile p).reverse.dropWhile p).reverse

/-- Python `text.strip()`: trim whitespace from both ends. -/
def pyStrip (s : String) : String :=
  ⟨pyStripList Char.isWhitespace s.data⟩

/-- Characters stripped from token ends by the entity heuristic,
Python `w.strip(",.!?;:")`. -/
def punctStripSet : List Char := [',', '.', '!', '?', ';', ':']

/-- Strip the punctuation set from both ends of a token. -/
def stripPunct (w : List Char) : List Char :=
  pyStripList (fun c => punctStripSet.contains c) w

/-- Python `w[:1].isupper()`: the first character exists and is uppercase. -/
def firstUpper : List Char → Bool
  | [] => false
  | c :: _ => c.isUpper

/-- Python `suffix in s` restricted to suffix position: `s.endswith(suffix)`. -/
def pyEndsWith (s suffix : String) : Bool :=
  suffix.data.reverse.isPrefixOf s.data.reverse

/-- Substring containment, Python `needle in hay`. -/
def listContainsSub (needle : List Char) : List Char → Bool
  | [] => needle.isEmpty
  | c :: cs => needle.isPrefixOf (c :: cs) || listContainsSub needle cs

/-- String substring containment built on `listContainsSub`. -/
def strContains (hay needle : String) : Bool :=
  listContainsSub needle.data hay.data

/-- Python `text.lower()` (ASCII case folding). -/
def pyLower (s : String) : String := ⟨s.data.map Char.toLower⟩

/-- The typed workflow state shared across all nodes (`AgentState` in
src/graph/nodes.py). `feedback := none` models Python `None`. -/
structure AgentState where
  user_input : String
  sanitized_input : String
  entities : List String
  goals : List String
  plan : List String
  action_results : List String
  memories_retrieved : List String
  memories_to_write : List String
  feedback : Option (List (String × Nat))
  response : String
deriving DecidableEq

/-- A possibly-partial state mapping: each field may be missing, the
argument type of `ensure_state_defaults`. -/
structure PartialState where
  user_input : Option String := none
  sanitized_input : Option String := none
  entities : Option (List String) := none
  goals : Option (List String) := none
  plan : Option (List String) := none
  action_results : Option (List String) := none
  memories_retrieved : Option (List String) := none
  memories_to_write : Option (List String) := none
  feedback : Option (List (String × Nat)) := none
  response : Option String := none

/-- Return an `AgentState` with defaults for any missing keys
(`ensure_state_defaults` in src/graph/nodes.py). Note that `feedback`
is passed through unchanged: a missing `feedback` stays `None`. -/
def ensure_state_defaults (state : PartialState) : AgentState :=
  { user_input := state.user_input.getD ""
  , sanitized_input := state.sanitized_input.getD ""
  , entities := state.entities.getD []
  , goals := state.goals.getD []
  , plan := state.plan.getD []
  , action_results := state.action_results.getD []
  , memories_retrieved := state.memories_retrieved.getD []
  , memories_to_write := state.memories_to_write.getD []
  , feedback := state.feedback
  , response := state.response.getD "" }

/-- View a fully-populated state as a partial mapping (every key present). -/
def AgentState.toPartial (s : AgentState) : PartialState :=
  { user_input := some s.user_input
  , sanitized_input := some s.sanitized_input
  , entities := some s.entities
  , goals := some s.goals
  , plan := some s.plan
  , action_results := some s.action_results
  , memories_retrieved := some s.memories_retrieved
  , memories_to_write := some s.memories_to_write
  , feedback := s.feedback
  , response := some s.response }

/-- Capitalized-token entity heuristic of `perception_node`: split the
text on whitespace, strip trailing punctuation from each token, keep
those whose first character is uppercase. -/
def computeEntities (text : String) : List String :=
  (((pyWords text).map stripPunct).filter firstUpper).map (fun w => String.mk w)

/-- Sanitize user input and extract lightweight entities
(`perception_node` in src/graph/nodes.py). -/
def perception_node (state0 : AgentState) : AgentState :=
  let state := ensure_state_defaults state0.toPartial
  let text := pyStrip state.user_input
  let state1 := { state with sanitized_input := text }
  if text ≠ "" ∧ state1.entities = [] then
    { state1 with entities := computeEntities text }
  else
    state1

/-- Extract explicit goals from sanitized input and append to state
(`goal_setting_node` in src/graph/nodes.py). -/
def goal_setting_node (state0 : AgentState) : AgentState :=
  let state := ensure_state_defaults state0.toPartial
  let text := state.sanitized_input
  if text ≠ "" ∧ (pyEndsWith text "." = true ∨ pyEndsWith text "!" = true ∨
      pyEndsWith text "?" = true ∨ 3 < (pyWords text).length) then
    { state with goals := state.goals ++ [text] }
  else
    state

/-- Retrieve relevant memories, stub (`memory_recall_node`). -/
def memory_recall_node (state0 : AgentState) : AgentState :=
  let state := ensure_state_defaults state0.toPartial
  if state.memories_retrieved = [] then
    { state with memories_retrieved := ([] : List String) }
  else
    state

/-- Produce a placeholder response (`reasoning_node`). -/
def reasoning_node (state0 : AgentState) : AgentState :=
  let state := ensure_state_defaults state0.toPartial
  { state with response := "Stub response: planned action" }

/-- Create a simple execution plan from the sanitized input
(`planning_node` in src/graph/nodes.py). -/
def planning_node (state0 : AgentState) : AgentState :=
  let state := ensure_state_defaults state0.toPartial
  let plan : List String := []
  let plan :=
    if strContains (pyLower state.sanitized_input) "meeting" = true then
      plan ++ ["calendar.create_event"]
    else
      plan
  { state with plan := plan }

/-- Execute planned actions, stub (`action_node` in src/graph/nodes.py). -/
def action_node (state0 : AgentState) : AgentState :=
  let state := ensure_state_defaults state0.toPartial
  if state.plan ≠ [] then
    { state with action_results := state.plan.map (fun _ => "ok") }
  else
    { state with action_results := ["ok"] }

/-- Reflect on outcomes, stub (`self_reflection_node`): unconditionally
records the placeholder rating. -/
def self_reflection_node (state0 : AgentState) : AgentState :=
  let state := ensure_state_defaults state0.toPartial
  { state with feedback := some [("rating", 5)] }

/-- Python truthiness of the `feedback` dictionary: falsy when the key
is `None` (absent) or the dictionary is empty. -/
def feedbackFalsy : Option (List (String × Nat)) → Bool
  | none => true
  | some d => d.isEmpty

/-- Record feedback if not already present, stub (`feedback_node` in
src/graph/nodes.py): overwrites exactly when `feedback` is falsy. -/
def feedback_node (state0 : AgentState) : AgentState :=
  let state := ensure_state_defaults state0.toPartial
  if feedbackFalsy state.feedback then
    { state with feedback := some [("rating", 5)] }
  else
    state

/-- Persist new memories, stub (`memory_write_node`). -/
def memory_write_node (state0 : AgentState) : AgentState :=
  let state := ensure_state_defaults state0.toPartial
  if state.memories_to_write ≠ [] then
    { state with memories_to_write := ([] : List String) }
  else
    state

/-- Completion heuristic (`is_task_complete` in src/graph/workflow.py). -/
def is_task_complete (state : AgentState) : Bool :=
  let plan := state.plan
  let results := state.action_results
  if plan.isEmpty then true
  else if !plan.isEmpty ∧ plan.length ≤ results.length ∧
      (results.take plan.length).all (fun r => r == "ok") then true
  else false

/-- Router controlling the loop after memory write (`should_continue`). -/
def should_continue (state : AgentState) : String :=
  if !(is_task_complete state) then "continue" else "end"

/-- Target of a graph edge: a named node, or the terminal `END`. -/
inductive GraphTarget
  | node (name : String)
  | END
deriving DecidableEq

/-- The conditional edge mapping attached to the MemoryWrite node
(`graph.add_conditional_edges` in src/graph/workflow.py). -/
def conditional_edges_MemoryWrite (k : String) : Option GraphTarget :=
  if k = "continue" then some (GraphTarget.node "Reasoning")
  else if k = "end" then some GraphTarget.END
  else none

/-- The wired node functions in graph order, as iterated by
`run_graph_once` in src/graph/workflow.py. -/
def pipeline : List (AgentState → AgentState) :=
  [perception_node, goal_setting_node, memory_recall_node, reasoning_node,
   planning_node, action_node, feedback_node, memory_write_node]

/-- Final state of a run together with the user and session identifiers
attached by `run_graph_once`. -/
structure RunState where
  agent : AgentState
  user_id : String
  session_id : String

/-- Execute the node pipeline once in a linear fashion
(`run_graph_once` in src/graph/workflow.py). The nondeterministic
`uuid.uuid4()` results are supplied as the oracle arguments `genU`,
`genS`, used when the corresponding identifier is absent. -/
def run_graph_once (user_id session_id : Option String) (genU genS : String)
    (user_input : String) : RunState :=
  let base : PartialState := { user_input := some user_input }
  let state := ensure_state_defaults base
  { agent := pipeline.foldl (fun s f => f s) state
  , user_id := user_id.getD genU
  , session_id := session_id.getD genS }

/-- A fully-defaulted concrete state, used as test input. -/
def sDefault : AgentState :=
  ⟨"", "", [], [], [], [], [], [], none, ""⟩

/-- A concrete state carrying a one-step plan. -/
def sPlanned : AgentState :=
  { sDefault with plan := ["calendar.create_event"] }

/-- A concrete state whose feedback record is present but empty. -/
def sEmptyFb : AgentState :=
  { sDefault with feedback := some [] }

/-- A concrete state carrying a non-empty feedback record. -/
def sRatedFb : AgentState :=
  { sDefault with feedback := some [("rating", 3)] }

/-- A concrete state with already-populated entities. -/
def sEnt : AgentState :=
  { sDefault with entities := ["Sam"] }

/-- A concrete state with one existing goal and a punctuated input. -/
def sGoal : AgentState :=
  { sDefault with goals := ["g0"], sanitized_input := "Hi." }

/-! Helper lemmas about the embedding. -/

/-- Normalizing a fully-populated state is the identity. -/
@[simp]
theorem ensure_toPartial (s : AgentState) :
    ensure_state_defaults s.toPartial = s := rfl

/-- Perception leaves the raw user input unchanged. -/
theorem perception_node_user_input (s : AgentState) :
    (perception_node s).user_input = s.user_input := by
  simp only [perception_node, ensure_toPartial]
  split <;> rfl

/-- Closed form of the entities field produced by perception. -/
theorem perception_node_entities (s : AgentState) :
    (perception_node s).entities =
      if pyStrip s.user_input ≠ "" ∧ s.entities = [] then
        computeEntities (pyStrip s.user_input)
      else s.entities := by
  simp only [perception_node, ensure_toPartial]
  split <;> rfl

/-- Perception does not touch the goals field. -/
theorem perception_node_goals (s : AgentState) :
    (perception_node s).goals = s.goals := by
  simp only [perception_node, ensure_toPartial]
  split <;> rfl

/-- Goal setting does not touch the plan field. -/
theorem goal_setting_node_plan (s : AgentState) :
    (goal_setting_node s).plan = s.plan := by
  simp only [goal_setting_node, ensure_toPartial]
  split <;> rfl

/-- Memory recall does not touch the goals field. -/
theorem memory_recall_node_goals (s : AgentState) :
    (memory_recall_node s).goals = s.goals := by
  simp only [memory_recall_node, ensure_toPartial]
  split <;> rfl

/-- Reasoning does not touch the goals field. -/
theorem reasoning_node_goals (s : AgentState) :
    (reasoning_node s).goals = s.goals := rfl

/-- Planning does not touch the goals field. -/
theorem planning_node_goals (s : AgentState) :
    (planning_node s).goals = s.goals := rfl

/-- Action does not touch the goals field. -/
theorem action_node_goals (s : AgentState) :
    (action_node s).goals = s.goals := by
  simp only [action_node, ensure_toPartial]
  split <;> rfl

/-- Feedback does not touch the goals field. -/
theorem feedback_node_goals (s : AgentState) :
    (feedback_node s).goals = s.goals := by
  simp only [feedback_node, ensure_toPartial]
  split <;> rfl

/-- Memory write does not touch the goals field. -/
theorem memory_write_node_goals (s : AgentState) :
    (memory_write_node s).goals = s.goals := by
  simp only [memory_write_node, ensure_toPartial]
  split <;> rfl

/-- Feedback does not touch the plan field. -/
theorem feedback_node_plan (s : AgentState) :
    (feedback_node s).plan = s.plan := by
  simp only [feedback_node, ensure_toPartial]
  split <;> rfl

/-- Feedback does not touch the action results. -/
theorem feedback_node_results (s : AgentState) :
    (feedback_node s).action_results = s.action_results := by
  simp only [feedback_node, ensure_toPartial]
  split <;> rfl

/-- Memory write does not touch the plan field. -/
theorem memory_write_node_plan (s : AgentState) :
    (memory_write_node s).plan = s.plan := by
  simp only [memory_write_node, ensure_toPartial]
  split <;> rfl

/-- Memory write does not touch the action results. -/
theorem memory_write_node_results (s : AgentState) :
    (memory_write_node s).action_results = s.action_results := by
  simp only [memory_write_node, ensure_toPartial]
  split <;> rfl

/-- Completion depends only on the plan and the action results. -/
theorem is_task_complete_congr {s t : AgentState}
    (h1 : s.plan = t.plan) (h2 : s.action_results = t.action_results) :
    is_task_complete s = is_task_complete t := by
  unfold is_task_complete
  rw [h1, h2]

/-- Closed form of the plan produced by planning. -/
theorem planning_node_plan (s : AgentState) :
    (planning_node s).plan =
      if strContains (pyLower s.sanitized_input) "meeting" = true then
        ["calendar.create_event"]
      else [] := by
  simp only [planning_node, ensure_toPartial]
  split <;> rfl

/-- Action preserves the plan field. -/
theorem action_node_plan (s : AgentState) :
    (action_node s).plan = s.plan := by
  simp only [action_node, ensure_toPartial]
  split <;> rfl

/-- Closed form of the action results produced by action. -/
theorem action_node_results (s : AgentState) :
    (action_node s).action_results =
      if s.plan ≠ [] then s.plan.map (fun _ => "ok") else ["ok"] := by
  simp only [action_node, ensure_toPartial]
  split <;> rfl

/-- After planning followed by action, the task is always complete. -/
theorem complete_after_action_planning (s : AgentState) :
    is_task_complete (action_node (planning_node s)) = true := by
  have hp := planning_node_plan s
  by_cases h : strContains (pyLower s.sanitized_input) "meeting" = true
  · rw [if_pos h] at hp
    unfold is_task_complete
    rw [action_node_plan, action_node_results, hp]
    simp
  · rw [if_neg h] at hp
    unfold is_task_complete
    rw [action_node_plan, action_node_results, hp]
    simp

/-! Claim theorems. -/

/-- C1 (counterexample): on a state with an empty plan, ToolExecution
produces one result entry, so the length of action results does not
equal the length of the plan. -/
theorem C1_counterexample :
    ¬ ((action_node sDefault).action_results.length =
        (action_node sDefault).plan.length) := by decide

/-- C1 (amended): after the ToolExecution stage, the length of
action results equals the length of the plan whenever the plan is
non-empty; when the plan is empty, the stage records the single trivial
success entry instead. -/
theorem C1_amended_length (s : AgentState) :
    (s.plan ≠ [] →
      (action_node s).action_results.length = (action_node s).plan.length) ∧
    (s.plan = [] → (action_node s).action_results = ["ok"]) := by
  constructor
  · intro h
    rw [action_node_results, action_node_plan, if_pos h]
    simp
  · intro h
    rw [action_node_results, if_neg (fun hc => hc h)]

/-- C1 (witness): the amended statement evaluated on a one-step plan
and on the empty plan. -/
theorem C1_witness :
    (action_node sPlanned).action_results.length =
      (action_node sPlanned).plan.length ∧
    (action_node sDefault).action_results = ["ok"] :=
  ⟨(C1_amended_length sPlanned).1 (by decide), (C1_amended_length sDefault).2 rfl⟩

/-- C2: the completion predicate holds iff the plan is empty, or the
action results are at least as long as the plan and each of the first
plan-length entries is the exact success sentinel; in particular it
holds whenever the plan is empty. -/
theorem C2_is_task_complete_spec (s : AgentState) :
    (is_task_complete s = true ↔
      (s.plan = [] ∨ (s.plan.length ≤ s.action_results.length ∧
        ∀ r ∈ s.action_results.take s.plan.length, r = "ok"))) ∧
    (s.plan = [] → is_task_complete s = true) := by
  have main : is_task_complete s = true ↔
      (s.plan = [] ∨ (s.plan.length ≤ s.action_results.length ∧
        ∀ r ∈ s.action_results.take s.plan.length, r = "ok")) := by
    by_cases hp : s.plan = []
    · simp [is_task_complete, hp]
    · simp [is_task_complete, hp, List.all_eq_true]
  exact ⟨main, fun h => main.mpr (Or.inl h)⟩

/-- C2 (witness): the predicate evaluated on the defaulted state,
whose plan is empty. -/
theorem C2_witness : is_task_complete sDefault = true :=
  (C2_is_task_complete_spec sDefault).2 rfl

/-- C3: on an empty plan the ToolExecution stage produces exactly the
one trivial success entry, and its output action results are never
empty. -/
theorem C3_action_nonempty (s : AgentState) :
    (s.plan = [] → (action_node s).action_results = ["ok"]) ∧
    (action_node s).action_results ≠ [] := by
  constructor
  · intro h
    rw [action_node_results, if_neg (fun hc => hc h)]
  · rw [action_node_results]
    split
    · simp_all
    · simp

/-- C3 (witness): evaluated on the empty plan and on a one-step plan. -/
theorem C3_witness :
    (action_node sDefault).action_results = ["ok"] ∧
    (action_node sPlanned).action_results ≠ [] :=
  ⟨(C3_action_nonempty sDefault).1 rfl, (C3_action_nonempty sPlanned).2⟩

/-- C4: the router selects the loop-back branch iff the completion
predicate is false, and the conditional edge map sends the router key
to the Reasoning node exactly then, to the terminal target otherwise. -/
theorem C4_decision (s : AgentState) :
    (should_continue s = "continue" ↔ is_task_complete s = false) ∧
    conditional_edges_MemoryWrite (should_continue s) =
      some (if is_task_complete s then GraphTarget.END
            else GraphTarget.node "Reasoning") := by
  by_cases h : is_task_complete s = true
  · simp [should_continue, conditional_edges_MemoryWrite, h]
  · simp [should_continue, conditional_edges_MemoryWrite,
      Bool.eq_false_iff.mpr h, h]

/-- C4 (witness): the decision evaluated on the defaulted state, whose
empty plan makes the predicate true. -/
theorem C4_witness :
    ¬ (should_continue sDefault = "continue") ∧
    conditional_edges_MemoryWrite (should_continue sDefault) =
      some GraphTarget.END := by
  have h := C4_decision sDefault
  constructor
  · intro hc
    have hfalse := h.1.mp hc
    rw [show is_task_complete sDefault = true from rfl] at hfalse
    simp at hfalse
  · have h2 := h.2
    rwa [show is_task_complete sDefault = true from rfl, if_pos rfl] at h2

/-- Closed form of the goals field produced by goal setting. -/
theorem goal_setting_node_goals_eq (s : AgentState) :
    (goal_setting_node s).goals =
      if s.sanitized_input ≠ "" ∧ (pyEndsWith s.sanitized_input "." = true ∨
          pyEndsWith s.sanitized_input "!" = true ∨
          pyEndsWith s.sanitized_input "?" = true ∨
          3 < (pyWords s.sanitized_input).length) then
        s.goals ++ [s.sanitized_input]
      else s.goals := by
  simp only [goal_setting_node, ensure_toPartial]
  split <;> rfl

/-- Empty text satisfies none of the goal-gate disjuncts. -/
theorem goal_gate_empty_text (s : AgentState) (he : s.sanitized_input = "") :
    ¬ (pyEndsWith s.sanitized_input "." = true ∨
       pyEndsWith s.sanitized_input "!" = true ∨
       pyEndsWith s.sanitized_input "?" = true ∨
       3 < (pyWords s.sanitized_input).length) := by
  rw [he]
  decide

/-- C5: GoalSetting appends the sanitized input to the goals iff the
text ends in terminal punctuation or has more than three words, and it
never removes a prior goal. -/
theorem C5_goal_setting (s : AgentState) :
    ((goal_setting_node s).goals = s.goals ++ [s.sanitized_input] ↔
      (pyEndsWith s.sanitized_input "." = true ∨
       pyEndsWith s.sanitized_input "!" = true ∨
       pyEndsWith s.sanitized_input "?" = true ∨
       3 < (pyWords s.sanitized_input).length)) ∧
    List.IsPrefix s.goals (goal_setting_node s).goals := by
  refine ⟨⟨fun hl => ?_, fun hD => ?_⟩, ?_⟩
  · by_cases he : s.sanitized_input = ""
    · rw [goal_setting_node_goals_eq, if_neg (fun hc => hc.1 he)] at hl
      simp at hl
    · by_cases hD : (pyEndsWith s.sanitized_input "." = true ∨
          pyEndsWith s.sanitized_input "!" = true ∨
          pyEndsWith s.sanitized_input "?" = true ∨
          3 < (pyWords s.sanitized_input).length)
      · exact hD
      · rw [goal_setting_node_goals_eq, if_neg (fun hc => hD hc.2)] at hl
        simp at hl
  · have he : s.sanitized_input ≠ "" := fun he => goal_gate_empty_text s he hD
    rw [goal_setting_node_goals_eq, if_pos ⟨he, hD⟩]
  · rw [goal_setting_node_goals_eq]
    split
    · exact List.prefix_append _ _
    · exact List.prefix_refl _

/-- C5 (witness): the gate evaluated on a punctuated text and on an
unpunctuated short text. -/
theorem C5_witness :
    (goal_setting_node { sDefault with sanitized_input := "Hi." }).goals =
      sDefault.goals ++ ["Hi."] :=
  (C5_goal_setting { sDefault with sanitized_input := "Hi." }).1.mpr
    (Or.inl (by decide))

/-- C6: Planning replaces the plan with the single calendar step when
the lowercased sanitized input contains the keyword, the empty plan
otherwise, and the result depends only on the sanitized input. -/
theorem C6_planning (s : AgentState) :
    ((planning_node s).plan =
      if strContains (pyLower s.sanitized_input) "meeting" = true then
        ["calendar.create_event"]
      else []) ∧
    ∀ t : AgentState, s.sanitized_input = t.sanitized_input →
      (planning_node s).plan = (planning_node t).plan := by
  refine ⟨planning_node_plan s, fun t h => ?_⟩
  rw [planning_node_plan, planning_node_plan, h]

/-- C6 (witness): two states agreeing on sanitized input get the same
plan; the meeting keyword yields the one-step plan. -/
theorem C6_witness :
    (planning_node sDefault).plan = (planning_node sEmptyFb).plan ∧
    (planning_node { sDefault with sanitized_input := "a meeting" }).plan =
      ["calendar.create_event"] := by
  refine ⟨(C6_planning sDefault).2 sEmptyFb rfl, ?_⟩
  rw [(C6_planning { sDefault with sanitized_input := "a meeting" }).1]
  decide

/-- C7: every stage function wired into the pipeline only ever extends
the goals sequence: the input goals are an ordered prefix of the output
goals. -/
theorem C7_goals_append_only :
    ∀ f ∈ pipeline, ∀ s : AgentState, List.IsPrefix s.goals (f s).goals := by
  intro f hf s
  simp only [pipeline, List.mem_cons, List.not_mem_nil, or_false] at hf
  rcases hf with rfl | rfl | rfl | rfl | rfl | rfl | rfl | rfl
  · rw [perception_node_goals]
  · rw [goal_setting_node_goals_eq]
    split
    · exact List.prefix_append _ _
    · exact List.prefix_refl _
  · rw [memory_recall_node_goals]
  · rw [reasoning_node_goals]
  · rw [planning_node_goals]
  · rw [action_node_goals]
  · rw [feedback_node_goals]
  · rw [memory_write_node_goals]

/-- C7 (witness): the append-only law evaluated for the goal-setting
stage on a concrete state with an existing goal. -/
theorem C7_witness :
    List.IsPrefix sGoal.goals (goal_setting_node sGoal).goals :=
  C7_goals_append_only goal_setting_node (by simp [pipeline]) sGoal

/-- C8 (counterexample): a present-but-empty feedback record is
overwritten by the wired FeedbackProcessing stage. -/
theorem C8_counterexample :
    sEmptyFb.feedback ≠ none ∧
    (feedback_node sEmptyFb).feedback ≠ sEmptyFb.feedback := by decide

/-- Closed form of the feedback field produced by the feedback stage. -/
theorem feedback_node_feedback_eq (s : AgentState) :
    (feedback_node s).feedback =
      if feedbackFalsy s.feedback = true then some [("rating", 5)]
      else s.feedback := by
  simp only [feedback_node, ensure_toPartial]
  split <;> rfl

/-- C8 (amended): the wired FeedbackProcessing stage writes the default
record exactly when feedback is falsy (absent or an empty record), and
leaves any non-empty feedback record unchanged; the unwired reflection
stage overwrites feedback unconditionally. -/
theorem C8_amended_feedback (s : AgentState) :
    (feedbackFalsy s.feedback = true →
      (feedback_node s).feedback = some [("rating", 5)]) ∧
    (feedbackFalsy s.feedback = false →
      (feedback_node s).feedback = s.feedback) ∧
    (self_reflection_node s).feedback = some [("rating", 5)] := by
  refine ⟨fun h => ?_, fun h => ?_, rfl⟩
  · rw [feedback_node_feedback_eq, if_pos h]
  · rw [feedback_node_feedback_eq, if_neg (by simp [h])]

/-- C8 (witness): the amended statement evaluated on an absent and on a
non-empty feedback record. -/
theorem C8_witness :
    (feedback_node sDefault).feedback = some [("rating", 5)] ∧
    (feedback_node sRatedFb).feedback = sRatedFb.feedback :=
  ⟨(C8_amended_feedback sDefault).1 rfl, (C8_amended_feedback sRatedFb).2.1 rfl⟩

/-- C9: Perception leaves already-populated entities unchanged, and a
second application of Perception never changes the entities produced by
the first. -/
theorem C9_perception_idem (s : AgentState) :
    (s.entities ≠ [] → (perception_node s).entities = s.entities) ∧
    (perception_node (perception_node s)).entities =
      (perception_node s).entities := by
  constructor
  · intro h
    rw [perception_node_entities, if_neg (fun hc => h hc.2)]
  · rw [perception_node_entities (perception_node s), perception_node_user_input,
      perception_node_entities s]
    by_cases hg : pyStrip s.user_input ≠ "" ∧ s.entities = []
    · rw [if_pos hg]
      by_cases hE : computeEntities (pyStrip s.user_input) = []
      · rw [if_pos ⟨hg.1, hE⟩, hE]
      · rw [if_neg (fun hc => hE hc.2)]
    · rw [if_neg hg, if_neg hg]

/-- C9 (witness): entities preserved on a populated state, and the
idempotence equation on the defaulted state. -/
theorem C9_witness :
    (perception_node sEnt).entities = sEnt.entities ∧
    (perception_node (perception_node sDefault)).entities =
      (perception_node sDefault).entities :=
  ⟨(C9_perception_idem sEnt).1 (by decide), (C9_perception_idem sDefault).2⟩

/-- C10: a run started through the linear entry point always ends in a
complete state, so the router never selects the loop-back branch. -/
theorem C10_run_complete (user_id session_id : Option String)
    (genU genS user_input : String) :
    is_task_complete (run_graph_once user_id session_id genU genS
        user_input).agent = true ∧
    should_continue (run_graph_once user_id session_id genU genS
        user_input).agent = "end" ∧
    conditional_edges_MemoryWrite (should_continue
        (run_graph_once user_id session_id genU genS user_input).agent) =
      some GraphTarget.END := by
  have hcomplete : ∀ t : AgentState,
      is_task_complete (memory_write_node (feedback_node (action_node
        (planning_node t)))) = true := by
    intro t
    calc is_task_complete (memory_write_node (feedback_node (action_node
            (planning_node t))))
        = is_task_complete (feedback_node (action_node (planning_node t))) :=
          is_task_complete_congr (memory_write_node_plan _)
            (memory_write_node_results _)
      _ = is_task_complete (action_node (planning_node t)) :=
          is_task_complete_congr (feedback_node_plan _) (feedback_node_results _)
      _ = true := complete_after_action_planning t
  have hagent : (run_graph_once user_id session_id genU genS user_input).agent =
      memory_write_node (feedback_node (action_node (planning_node
        (reasoning_node (memory_recall_node (goal_setting_node (perception_node
          (ensure_state_defaults { user_input := some user_input })))))))) := by
    simp only [run_graph_once, pipeline, List.foldl_cons, List.foldl_nil]
  have h1 : is_task_complete (run_graph_once user_id session_id genU genS
      user_input).agent = true := by
    rw [hagent]
    exact hcomplete _
  have h2 : should_continue (run_graph_once user_id session_id genU genS
      user_input).agent = "end" := by
    unfold should_continue
    rw [h1]
    rfl
  refine ⟨h1, h2, ?_⟩
  rw [h2]
  rfl
